import Mathlib

/-!
Verification of the LED-Sign panel-addressing and frame-compositing core.

Each Python script in the repository carries its own copy of a coordinate
resolver (get_pixel_index) plus a frame-render loop.  The definitions below
are direct translations of those functions into Lean, file by file.

Integer conventions: Python integers are embedded as ℤ.  Python's floor
division // and modulo % by a positive constant coincide with Lean's
Euclidean `/` and `%` on ℤ (both give a quotient rounding down and a
remainder in [0, d) when d > 0), so `x / 16` and `x % 16` below mean
exactly what `x // 16` and `x % 16` mean in the source.  Python floats are
embedded as ℚ (the scripts only feed decimal literals and rational
arithmetic into the paths verified here); `int(q)` truncates toward zero
and `a % b` on floats is floor-style, as defined by pyint and pymod below.
-/

/-- main.py line 12 (and the identical constant in every other script):
    16x16 matrix = 256 LEDs per panel. -/
def LED_PANEL_SIZE : ℤ := 256

/-- main.py line 13: number of LED panels. -/
def NUM_PANELS : ℤ := 4

/-- main.py line 14: total LED count. -/
def LED_COUNT : ℤ := LED_PANEL_SIZE * NUM_PANELS

/-- Python int() on a rational: truncation toward zero. -/
def pyint (q : ℚ) : ℤ := if q < 0 then -⌊-q⌋ else ⌊q⌋

/-- Python % on rationals (floor-style remainder, sign of the divisor for
    positive divisors). -/
def pymod (a b : ℚ) : ℚ := a - b * ⌊a / b⌋

namespace Main

/-- main.py line 27: TOTAL_WIDTH = 16 * NUM_PANELS. -/
def TOTAL_WIDTH : ℤ := 16 * NUM_PANELS

/-- main.py line 29. -/
def PANEL_HEIGHT : ℤ := 16

/-- main.py lines 41-60, NeoPixelController.get_pixel_index: 1x4 chain of
    16x16 panels, serpentine flip on odd global rows, bounds-checked. -/
def get_pixel_index (x y : ℤ) : ℤ :=
  if ¬ (0 ≤ x ∧ x < TOTAL_WIDTH ∧ 0 ≤ y ∧ y < PANEL_HEIGHT) then -1 else
  let panel := x / 16
  let local_x := x % 16
  let local_x := if y % 2 = 1 then 15 - local_x else local_x
  let pixel_index := panel * LED_PANEL_SIZE + y * 16 + local_x
  if 0 ≤ pixel_index ∧ pixel_index < LED_COUNT then pixel_index else -1

/-- Inverse of the chain resolver on its dense image: recovers the logical
    coordinate from a physical index (panel from the 256-block, row from the
    16-block, column undone through the serpentine flip). -/
def pixel_inverse (i : ℤ) : ℤ × ℤ :=
  let panel := i / 256
  let y := i % 256 / 16
  let c := i % 256 % 16
  let local_x := if y % 2 = 1 then 15 - c else c
  (panel * 16 + local_x, y)

end Main

namespace Text

/-- text.py line 26. -/
def TOTAL_WIDTH : ℤ := 16 * NUM_PANELS

/-- text.py line 27. -/
def PANEL_HEIGHT : ℤ := 16

/-- text.py lines 38-46: identical to main.py's chain resolver. -/
def get_pixel_index (x y : ℤ) : ℤ :=
  if ¬ (0 ≤ x ∧ x < TOTAL_WIDTH ∧ 0 ≤ y ∧ y < PANEL_HEIGHT) then -1 else
  let panel := x / 16
  let local_x := x % 16
  let local_x := if y % 2 = 1 then 15 - local_x else local_x
  let pixel_index := panel * LED_PANEL_SIZE + y * 16 + local_x
  if 0 ≤ pixel_index ∧ pixel_index < LED_COUNT then pixel_index else -1

end Text

namespace Chain

/-- chain.py lines 19-30: per-panel resolver taking the panel number as an
    argument; serpentine flip on odd rows, final index bounds-checked
    against LED_COUNT. -/
def get_pixel_index (x y panel : ℤ) : ℤ :=
  if ¬ (0 ≤ x ∧ x < 16 ∧ 0 ≤ y ∧ y < 16) then -1 else
  let x := if y % 2 = 1 then 15 - x else x
  let index := panel * LED_PANEL_SIZE + y * 16 + x
  if 0 ≤ index ∧ index < LED_COUNT then index else -1

end Chain

namespace Ball

/-- ball.py lines 27-34. -/
def PANEL_WIDTH : ℤ := 16
def PANEL_HEIGHT : ℤ := 16
def GRID_COLS : ℤ := 2
def GRID_ROWS : ℤ := 2
def DISPLAY_WIDTH : ℤ := PANEL_WIDTH * GRID_COLS
def DISPLAY_HEIGHT : ℤ := PANEL_HEIGHT * GRID_ROWS

/-- ball.py lines 36-70, BallDisplayController.get_pixel_index: 2x2 grid,
    physical layout [2][3] on the top row and [0][1] on the bottom row,
    serpentine flip on odd panel-local rows. -/
def get_pixel_index (x y : ℤ) : ℤ :=
  if ¬ (0 ≤ x ∧ x < DISPLAY_WIDTH ∧ 0 ≤ y ∧ y < DISPLAY_HEIGHT) then -1 else
  let panel_x := x / PANEL_WIDTH
  let panel_y := y / PANEL_HEIGHT
  let panel_index := if panel_y = 0 then 2 + panel_x else panel_x
  let local_x := x % PANEL_WIDTH
  let local_y := y % PANEL_HEIGHT
  let local_x := if local_y % 2 = 1 then PANEL_WIDTH - 1 - local_x else local_x
  let panel_offset := panel_index * LED_PANEL_SIZE
  let local_offset := local_y * PANEL_WIDTH + local_x
  panel_offset + local_offset

/-- Inverse of ball.py's 2x2 resolver on its dense image: panels 2 and 3
    belong to grid row 0, panels 0 and 1 to grid row 1. -/
def pixel_inverse (i : ℤ) : ℤ × ℤ :=
  let panel := i / 256
  let panel_y := if 2 ≤ panel then 0 else 1
  let panel_x := if 2 ≤ panel then panel - 2 else panel
  let local_y := i % 256 / 16
  let c := i % 256 % 16
  let local_x := if local_y % 2 = 1 then 15 - c else c
  (panel_x * 16 + local_x, panel_y * 16 + local_y)

end Ball

namespace Video

/-- video.py lines 24-30. -/
def PANEL_WIDTH : ℤ := 16
def PANEL_HEIGHT : ℤ := 16
def GRID_COLS : ℤ := 2
def GRID_ROWS : ℤ := 2
def DISPLAY_WIDTH : ℤ := PANEL_WIDTH * GRID_COLS
def DISPLAY_HEIGHT : ℤ := PANEL_HEIGHT * GRID_ROWS

/-- video.py lines 32-53: identical to ball.py's 2x2 panel-remap resolver. -/
def get_pixel_index (x y : ℤ) : ℤ :=
  if ¬ (0 ≤ x ∧ x < DISPLAY_WIDTH ∧ 0 ≤ y ∧ y < DISPLAY_HEIGHT) then -1 else
  let panel_x := x / PANEL_WIDTH
  let panel_y := y / PANEL_HEIGHT
  let panel_index := if panel_y = 0 then 2 + panel_x else panel_x
  let local_x := x % PANEL_WIDTH
  let local_y := y % PANEL_HEIGHT
  let local_x := if local_y % 2 = 1 then PANEL_WIDTH - 1 - local_x else local_x
  let panel_offset := panel_index * LED_PANEL_SIZE
  let local_offset := local_y * PANEL_WIDTH + local_x
  panel_offset + local_offset

end Video

namespace Stars

/-- stars.py lines 82-88. -/
def PANEL_WIDTH : ℤ := 16
def PANEL_HEIGHT : ℤ := 16
def GRID_COLS : ℤ := 2
def GRID_ROWS : ℤ := 2
def DISPLAY_WIDTH : ℤ := PANEL_WIDTH * GRID_COLS
def DISPLAY_HEIGHT : ℤ := PANEL_HEIGHT * GRID_ROWS

/-- stars.py lines 155-171, StarController.get_pixel_index: 2x2 grid in
    row-major panel order, every row pre-mirrored (local_x starts as
    PANEL_WIDTH-1 - x%16), then the usual serpentine flip on odd
    panel-local rows. -/
def get_pixel_index (x y : ℤ) : ℤ :=
  if ¬ (0 ≤ x ∧ x < DISPLAY_WIDTH ∧ 0 ≤ y ∧ y < DISPLAY_HEIGHT) then -1 else
  let panel_x := x / PANEL_WIDTH
  let panel_y := y / PANEL_HEIGHT
  let local_x := (PANEL_WIDTH - 1) - x % PANEL_WIDTH
  let local_y := y % PANEL_HEIGHT
  let local_x := if local_y % 2 = 1 then PANEL_WIDTH - 1 - local_x else local_x
  let panel_index := panel_y * GRID_COLS + panel_x
  let panel_offset := panel_index * LED_PANEL_SIZE
  let local_offset := local_y * PANEL_WIDTH + local_x
  panel_offset + local_offset

/-- Inverse of stars.py's 2x2 mirror resolver on its dense image. -/
def pixel_inverse (i : ℤ) : ℤ × ℤ :=
  let panel := i / 256
  let panel_y := panel / 2
  let panel_x := panel % 2
  let local_y := i % 256 / 16
  let c := i % 256 % 16
  let local_x := if local_y % 2 = 1 then c else 15 - c
  (panel_x * 16 + local_x, panel_y * 16 + local_y)

end Stars

namespace Stars0

/-- stars0.py lines 67-73. -/
def DISPLAY_WIDTH : ℤ := 32
def DISPLAY_HEIGHT : ℤ := 32

/-- stars0.py lines 134-150: identical to stars.py's mirror resolver. -/
def get_pixel_index (x y : ℤ) : ℤ :=
  if ¬ (0 ≤ x ∧ x < DISPLAY_WIDTH ∧ 0 ≤ y ∧ y < DISPLAY_HEIGHT) then -1 else
  let panel_x := x / 16
  let panel_y := y / 16
  let local_x := 15 - x % 16
  let local_y := y % 16
  let local_x := if local_y % 2 = 1 then 15 - local_x else local_x
  let panel_index := panel_y * 2 + panel_x
  panel_index * LED_PANEL_SIZE + local_y * 16 + local_x

end Stars0

namespace Stars01

/-- stars01.py lines 128-134. -/
def DISPLAY_WIDTH : ℤ := 32
def DISPLAY_HEIGHT : ℤ := 32

/-- stars01.py lines 204-220: identical to stars.py's mirror resolver. -/
def get_pixel_index (x y : ℤ) : ℤ :=
  if ¬ (0 ≤ x ∧ x < DISPLAY_WIDTH ∧ 0 ≤ y ∧ y < DISPLAY_HEIGHT) then -1 else
  let panel_x := x / 16
  let panel_y := y / 16
  let local_x := 15 - x % 16
  let local_y := y % 16
  let local_x := if local_y % 2 = 1 then 15 - local_x else local_x
  let panel_index := panel_y * 2 + panel_x
  panel_index * LED_PANEL_SIZE + local_y * 16 + local_x

end Stars01

namespace Shark

/-- shark.py lines 89-95. -/
def DISPLAY_WIDTH : ℤ := 32
def DISPLAY_HEIGHT : ℤ := 32

/-- shark.py lines 116-132, SharkController.get_pixel_index: identical to
    stars.py's mirror resolver. -/
def get_pixel_index (x y : ℤ) : ℤ :=
  if ¬ (0 ≤ x ∧ x < DISPLAY_WIDTH ∧ 0 ≤ y ∧ y < DISPLAY_HEIGHT) then -1 else
  let panel_x := x / 16
  let panel_y := y / 16
  let local_x := 15 - x % 16
  let local_y := y % 16
  let local_x := if local_y % 2 = 1 then 15 - local_x else local_x
  let panel_index := panel_y * 2 + panel_x
  panel_index * LED_PANEL_SIZE + local_y * 16 + local_x

end Shark

namespace Rabit

/-- rabit.py lines 84-90. -/
def DISPLAY_WIDTH : ℤ := 32
def DISPLAY_HEIGHT : ℤ := 32

/-- rabit.py lines 111-127: identical to stars.py's mirror resolver. -/
def get_pixel_index (x y : ℤ) : ℤ :=
  if ¬ (0 ≤ x ∧ x < DISPLAY_WIDTH ∧ 0 ≤ y ∧ y < DISPLAY_HEIGHT) then -1 else
  let panel_x := x / 16
  let panel_y := y / 16
  let local_x := 15 - x % 16
  let local_y := y % 16
  let local_x := if local_y % 2 = 1 then 15 - local_x else local_x
  let panel_index := panel_y * 2 + panel_x
  panel_index * LED_PANEL_SIZE + local_y * 16 + local_x

end Rabit

namespace Text02

/-- text02.py lines 32-38. -/
def DISPLAY_WIDTH : ℤ := 32
def DISPLAY_HEIGHT : ℤ := 32

/-- text02.py lines 45-62: identical to stars.py's mirror resolver. -/
def get_pixel_index (x y : ℤ) : ℤ :=
  if ¬ (0 ≤ x ∧ x < DISPLAY_WIDTH ∧ 0 ≤ y ∧ y < DISPLAY_HEIGHT) then -1 else
  let panel_x := x / 16
  let panel_y := y / 16
  let local_x := 15 - x % 16
  let local_y := y % 16
  let local_x := if local_y % 2 = 1 then 15 - local_x else local_x
  let panel_index := panel_y * 2 + panel_x
  panel_index * LED_PANEL_SIZE + local_y * 16 + local_x

end Text02

namespace Text0

/-- text0.py lines 77-83. -/
def DISPLAY_WIDTH : ℤ := 32
def DISPLAY_HEIGHT : ℤ := 32

/-- text0.py lines 99-117: 2x2 grid in row-major panel order, plain
    serpentine flip on odd panel-local rows (no mirror). -/
def get_pixel_index (x y : ℤ) : ℤ :=
  if ¬ (0 ≤ x ∧ x < DISPLAY_WIDTH ∧ 0 ≤ y ∧ y < DISPLAY_HEIGHT) then -1 else
  let panel_x := x / 16
  let panel_y := y / 16
  let panel_index := panel_y * 2 + panel_x
  let local_x := x % 16
  let local_y := y % 16
  let local_x := if local_y % 2 = 1 then 15 - local_x else local_x
  panel_index * LED_PANEL_SIZE + local_y * 16 + local_x

end Text0

namespace Text01

/-- text01.py lines 33-39. -/
def DISPLAY_WIDTH : ℤ := 32
def DISPLAY_HEIGHT : ℤ := 32

/-- text01.py lines 42-61: 2x2 grid, the two panels of each row swapped
    (panel_x becomes 1 - panel_x), serpentine flip on odd local rows. -/
def get_pixel_index (x y : ℤ) : ℤ :=
  if ¬ (0 ≤ x ∧ x < DISPLAY_WIDTH ∧ 0 ≤ y ∧ y < DISPLAY_HEIGHT) then -1 else
  let local_x := x % 16
  let local_y := y % 16
  let panel_x := x / 16
  let panel_y := y / 16
  let panel_x := 1 - panel_x
  let local_x := if local_y % 2 = 1 then 15 - local_x else local_x
  let panel_index := panel_y * 2 + panel_x
  panel_index * LED_PANEL_SIZE + local_y * 16 + local_x

end Text01

namespace Text03

/-- text03.py lines 43-47. -/
def DISPLAY_WIDTH : ℤ := 64
def DISPLAY_HEIGHT : ℤ := 16

/-- text03.py lines 117-132: 1x4 chain with the y axis flipped
    (y becomes DISPLAY_HEIGHT-1-y), serpentine flip on odd flipped rows. -/
def get_pixel_index (x y : ℤ) : ℤ :=
  if ¬ (0 ≤ x ∧ x < DISPLAY_WIDTH ∧ 0 ≤ y ∧ y < DISPLAY_HEIGHT) then -1 else
  let y := DISPLAY_HEIGHT - 1 - y
  let panel_x := x / 16
  let local_x := x % 16
  let local_y := y
  let local_x := if local_y % 2 = 1 then 15 - local_x else local_x
  panel_x * LED_PANEL_SIZE + local_y * 16 + local_x

end Text03

namespace Text04

/-- text04.py lines 69-73. -/
def DISPLAY_WIDTH : ℤ := 64
def DISPLAY_HEIGHT : ℤ := 16

/-- text04.py lines 200-216: identical to text03.py's y-flipped chain
    resolver. -/
def get_pixel_index (x y : ℤ) : ℤ :=
  if ¬ (0 ≤ x ∧ x < DISPLAY_WIDTH ∧ 0 ≤ y ∧ y < DISPLAY_HEIGHT) then -1 else
  let y := DISPLAY_HEIGHT - 1 - y
  let panel_x := x / 16
  let local_x := x % 16
  let local_y := y
  let local_x := if local_y % 2 = 1 then 15 - local_x else local_x
  panel_x * LED_PANEL_SIZE + local_y * 16 + local_x

end Text04

namespace Textfire

/-- textfire.py lines 33-40. -/
def DISPLAY_WIDTH : ℤ := 64
def DISPLAY_HEIGHT : ℤ := 16

/-- textfire.py lines 79-97: identical to text03.py's y-flipped chain
    resolver. -/
def get_pixel_index (x y : ℤ) : ℤ :=
  if ¬ (0 ≤ x ∧ x < DISPLAY_WIDTH ∧ 0 ≤ y ∧ y < DISPLAY_HEIGHT) then -1 else
  let y := DISPLAY_HEIGHT - 1 - y
  let panel_x := x / 16
  let local_x := x % 16
  let local_y := y
  let local_x := if local_y % 2 = 1 then 15 - local_x else local_x
  panel_x * LED_PANEL_SIZE + local_y * 16 + local_x

end Textfire


/-- The logical canvas bounds check shared by every resolver. -/
def InCanvas (W H x y : ℤ) : Prop := 0 ≤ x ∧ x < W ∧ 0 ≤ y ∧ y < H

/-- Totality contract of a resolver: in-canvas coordinates resolve to a
    physical index in [0, LED_COUNT); everything else resolves to the
    OUT_OF_RANGE sentinel -1. -/
def ResolverTotal (W H : ℤ) (f : ℤ → ℤ → ℤ) : Prop :=
  ∀ x y : ℤ,
    (InCanvas W H x y → 0 ≤ f x y ∧ f x y < LED_COUNT) ∧
    (¬ InCanvas W H x y → f x y = -1)

/-- Round-trip contract: the inverse recovers the logical coordinate from
    the resolved physical index, for every in-canvas input. -/
def RoundTrip (W H : ℤ) (f : ℤ → ℤ → ℤ) (g : ℤ → ℤ × ℤ) : Prop :=
  ∀ x y : ℤ, InCanvas W H x y → g (f x y) = (x, y)

/-- Injectivity on the canvas: distinct in-canvas coordinates resolve to
    distinct physical indices. -/
def InjectiveOnCanvas (W H : ℤ) (f : ℤ → ℤ → ℤ) : Prop :=
  ∀ x1 y1 x2 y2 : ℤ, InCanvas W H x1 y1 → InCanvas W H x2 y2 →
    f x1 y1 = f x2 y2 → x1 = x2 ∧ y1 = y2

lemma roundTrip_injectiveOnCanvas {W H : ℤ} {f : ℤ → ℤ → ℤ} {g : ℤ → ℤ × ℤ}
    (h : RoundTrip W H f g) : InjectiveOnCanvas W H f := by
  intro x1 y1 x2 y2 h1 h2 he
  have e1 := h x1 y1 h1
  have e2 := h x2 y2 h2
  rw [he, e2] at e1
  exact ⟨(congrArg Prod.fst e1).symm, (congrArg Prod.snd e1).symm⟩

lemma main_total : ResolverTotal Main.TOTAL_WIDTH Main.PANEL_HEIGHT Main.get_pixel_index := by
  intro x y
  constructor <;> intro h <;>
    simp only [InCanvas, Main.get_pixel_index, Main.TOTAL_WIDTH, Main.PANEL_HEIGHT, LED_COUNT, LED_PANEL_SIZE, NUM_PANELS] at h ⊢ <;>
    (split_ifs <;> omega)

lemma text_total : ResolverTotal Text.TOTAL_WIDTH Text.PANEL_HEIGHT Text.get_pixel_index := by
  intro x y
  constructor <;> intro h <;>
    simp only [InCanvas, Text.get_pixel_index, Text.TOTAL_WIDTH, Text.PANEL_HEIGHT, LED_COUNT, LED_PANEL_SIZE, NUM_PANELS] at h ⊢ <;>
    (split_ifs <;> omega)

lemma ball_total : ResolverTotal Ball.DISPLAY_WIDTH Ball.DISPLAY_HEIGHT Ball.get_pixel_index := by
  intro x y
  constructor <;> intro h <;>
    simp only [InCanvas, Ball.get_pixel_index, Ball.DISPLAY_WIDTH, Ball.DISPLAY_HEIGHT, Ball.PANEL_WIDTH, Ball.PANEL_HEIGHT, Ball.GRID_COLS, Ball.GRID_ROWS, LED_COUNT, LED_PANEL_SIZE, NUM_PANELS] at h ⊢ <;>
    (split_ifs <;> omega)

lemma video_total : ResolverTotal Video.DISPLAY_WIDTH Video.DISPLAY_HEIGHT Video.get_pixel_index := by
  intro x y
  constructor <;> intro h <;>
    simp only [InCanvas, Video.get_pixel_index, Video.DISPLAY_WIDTH, Video.DISPLAY_HEIGHT, Video.PANEL_WIDTH, Video.PANEL_HEIGHT, Video.GRID_COLS, Video.GRID_ROWS, LED_COUNT, LED_PANEL_SIZE, NUM_PANELS] at h ⊢ <;>
    (split_ifs <;> omega)

lemma stars_total : ResolverTotal Stars.DISPLAY_WIDTH Stars.DISPLAY_HEIGHT Stars.get_pixel_index := by
  intro x y
  constructor <;> intro h <;>
    simp only [InCanvas, Stars.get_pixel_index, Stars.DISPLAY_WIDTH, Stars.DISPLAY_HEIGHT, Stars.PANEL_WIDTH, Stars.PANEL_HEIGHT, Stars.GRID_COLS, Stars.GRID_ROWS, LED_COUNT, LED_PANEL_SIZE, NUM_PANELS] at h ⊢ <;>
    (split_ifs <;> omega)

lemma stars0_total : ResolverTotal Stars0.DISPLAY_WIDTH Stars0.DISPLAY_HEIGHT Stars0.get_pixel_index := by
  intro x y
  constructor <;> intro h <;>
    simp only [InCanvas, Stars0.get_pixel_index, Stars0.DISPLAY_WIDTH, Stars0.DISPLAY_HEIGHT, LED_COUNT, LED_PANEL_SIZE, NUM_PANELS] at h ⊢ <;>
    (split_ifs <;> omega)

lemma stars01_total : ResolverTotal Stars01.DISPLAY_WIDTH Stars01.DISPLAY_HEIGHT Stars01.get_pixel_index := by
  intro x y
  constructor <;> intro h <;>
    simp only [InCanvas, Stars01.get_pixel_index, Stars01.DISPLAY_WIDTH, Stars01.DISPLAY_HEIGHT, LED_COUNT, LED_PANEL_SIZE, NUM_PANELS] at h ⊢ <;>
    (split_ifs <;> omega)

lemma shark_total : ResolverTotal Shark.DISPLAY_WIDTH Shark.DISPLAY_HEIGHT Shark.get_pixel_index := by
  intro x y
  constructor <;> intro h <;>
    simp only [InCanvas, Shark.get_pixel_index, Shark.DISPLAY_WIDTH, Shark.DISPLAY_HEIGHT, LED_COUNT, LED_PANEL_SIZE, NUM_PANELS] at h ⊢ <;>
    (split_ifs <;> omega)

lemma rabit_total : ResolverTotal Rabit.DISPLAY_WIDTH Rabit.DISPLAY_HEIGHT Rabit.get_pixel_index := by
  intro x y
  constructor <;> intro h <;>
    simp only [InCanvas, Rabit.get_pixel_index, Rabit.DISPLAY_WIDTH, Rabit.DISPLAY_HEIGHT, LED_COUNT, LED_PANEL_SIZE, NUM_PANELS] at h ⊢ <;>
    (split_ifs <;> omega)

lemma text02_total : ResolverTotal Text02.DISPLAY_WIDTH Text02.DISPLAY_HEIGHT Text02.get_pixel_index := by
  intro x y
  constructor <;> intro h <;>
    simp only [InCanvas, Text02.get_pixel_index, Text02.DISPLAY_WIDTH, Text02.DISPLAY_HEIGHT, LED_COUNT, LED_PANEL_SIZE, NUM_PANELS] at h ⊢ <;>
    (split_ifs <;> omega)

lemma text0_total : ResolverTotal Text0.DISPLAY_WIDTH Text0.DISPLAY_HEIGHT Text0.get_pixel_index := by
  intro x y
  constructor <;> intro h <;>
    simp only [InCanvas, Text0.get_pixel_index, Text0.DISPLAY_WIDTH, Text0.DISPLAY_HEIGHT, LED_COUNT, LED_PANEL_SIZE, NUM_PANELS] at h ⊢ <;>
    (split_ifs <;> omega)

lemma text01_total : ResolverTotal Text01.DISPLAY_WIDTH Text01.DISPLAY_HEIGHT Text01.get_pixel_index := by
  intro x y
  constructor <;> intro h <;>
    simp only [InCanvas, Text01.get_pixel_index, Text01.DISPLAY_WIDTH, Text01.DISPLAY_HEIGHT, LED_COUNT, LED_PANEL_SIZE, NUM_PANELS] at h ⊢ <;>
    (split_ifs <;> omega)

lemma text03_total : ResolverTotal Text03.DISPLAY_WIDTH Text03.DISPLAY_HEIGHT Text03.get_pixel_index := by
  intro x y
  constructor <;> intro h <;>
    simp only [InCanvas, Text03.get_pixel_index, Text03.DISPLAY_WIDTH, Text03.DISPLAY_HEIGHT, LED_COUNT, LED_PANEL_SIZE, NUM_PANELS] at h ⊢ <;>
    (split_ifs <;> omega)

lemma text04_total : ResolverTotal Text04.DISPLAY_WIDTH Text04.DISPLAY_HEIGHT Text04.get_pixel_index := by
  intro x y
  constructor <;> intro h <;>
    simp only [InCanvas, Text04.get_pixel_index, Text04.DISPLAY_WIDTH, Text04.DISPLAY_HEIGHT, LED_COUNT, LED_PANEL_SIZE, NUM_PANELS] at h ⊢ <;>
    (split_ifs <;> omega)

lemma textfire_total : ResolverTotal Textfire.DISPLAY_WIDTH Textfire.DISPLAY_HEIGHT Textfire.get_pixel_index := by
  intro x y
  constructor <;> intro h <;>
    simp only [InCanvas, Textfire.get_pixel_index, Textfire.DISPLAY_WIDTH, Textfire.DISPLAY_HEIGHT, LED_COUNT, LED_PANEL_SIZE, NUM_PANELS] at h ⊢ <;>
    (split_ifs <;> omega)

lemma chain_total (p : ℤ) (hp0 : 0 ≤ p) (hp : p < NUM_PANELS) :
    ResolverTotal 16 16 (fun x y => Chain.get_pixel_index x y p) := by
  simp only [NUM_PANELS] at hp
  intro x y
  constructor <;> intro h <;>
    simp only [InCanvas, Chain.get_pixel_index, LED_COUNT, LED_PANEL_SIZE, NUM_PANELS] at h ⊢ <;>
    (split_ifs <;> omega)

/-- C1: every get_pixel_index in the repository is total: on its script's
    logical canvas it returns a physical index in [0, LED_COUNT) = [0, 1024),
    and on every other integer input (negative coordinates included) it
    returns the OUT_OF_RANGE sentinel -1, never wrapping to a valid index.
    For chain.py the panel argument ranges over the configured panels. -/
theorem C1_resolver_totality :
    ResolverTotal Main.TOTAL_WIDTH Main.PANEL_HEIGHT Main.get_pixel_index ∧
    ResolverTotal Text.TOTAL_WIDTH Text.PANEL_HEIGHT Text.get_pixel_index ∧
    (∀ p : ℤ, 0 ≤ p → p < NUM_PANELS →
      ResolverTotal 16 16 (fun x y => Chain.get_pixel_index x y p)) ∧
    ResolverTotal Ball.DISPLAY_WIDTH Ball.DISPLAY_HEIGHT Ball.get_pixel_index ∧
    ResolverTotal Video.DISPLAY_WIDTH Video.DISPLAY_HEIGHT Video.get_pixel_index ∧
    ResolverTotal Stars.DISPLAY_WIDTH Stars.DISPLAY_HEIGHT Stars.get_pixel_index ∧
    ResolverTotal Stars0.DISPLAY_WIDTH Stars0.DISPLAY_HEIGHT Stars0.get_pixel_index ∧
    ResolverTotal Stars01.DISPLAY_WIDTH Stars01.DISPLAY_HEIGHT Stars01.get_pixel_index ∧
    ResolverTotal Shark.DISPLAY_WIDTH Shark.DISPLAY_HEIGHT Shark.get_pixel_index ∧
    ResolverTotal Rabit.DISPLAY_WIDTH Rabit.DISPLAY_HEIGHT Rabit.get_pixel_index ∧
    ResolverTotal Text0.DISPLAY_WIDTH Text0.DISPLAY_HEIGHT Text0.get_pixel_index ∧
    ResolverTotal Text01.DISPLAY_WIDTH Text01.DISPLAY_HEIGHT Text01.get_pixel_index ∧
    ResolverTotal Text02.DISPLAY_WIDTH Text02.DISPLAY_HEIGHT Text02.get_pixel_index ∧
    ResolverTotal Text03.DISPLAY_WIDTH Text03.DISPLAY_HEIGHT Text03.get_pixel_index ∧
    ResolverTotal Text04.DISPLAY_WIDTH Text04.DISPLAY_HEIGHT Text04.get_pixel_index ∧
    ResolverTotal Textfire.DISPLAY_WIDTH Textfire.DISPLAY_HEIGHT Textfire.get_pixel_index :=
  ⟨main_total, text_total, chain_total, ball_total, video_total, stars_total,
   stars0_total, stars01_total, shark_total, rabit_total, text0_total,
   text01_total, text02_total, text03_total, text04_total, textfire_total⟩

/-- Concrete instances of C1: an in-canvas point resolves inside [0, 1024)
    for the chain resolver, and an out-of-canvas point (negative x) resolves
    to -1 for the 2x2 mirror resolver. -/
theorem C1_resolver_totality_witness :
    (0 ≤ Main.get_pixel_index 3 5 ∧ Main.get_pixel_index 3 5 < LED_COUNT) ∧
    Stars.get_pixel_index (-1) 0 = -1 :=
  ⟨(C1_resolver_totality.1 3 5).1 (by constructor <;> [decide; constructor <;> [decide; constructor <;> decide]]),
   (C1_resolver_totality.2.2.2.2.2.1 (-1) 0).2 (by intro hc; exact absurd hc.1 (by decide))⟩

lemma main_roundTrip :
    RoundTrip Main.TOTAL_WIDTH Main.PANEL_HEIGHT Main.get_pixel_index Main.pixel_inverse := by
  intro x y h
  simp only [InCanvas, Main.TOTAL_WIDTH, Main.PANEL_HEIGHT, NUM_PANELS] at h
  simp only [Main.get_pixel_index, Main.pixel_inverse, Main.TOTAL_WIDTH,
    Main.PANEL_HEIGHT, LED_COUNT, LED_PANEL_SIZE, NUM_PANELS]
  split_ifs <;> simp_all <;> constructor <;> omega

lemma ball_roundTrip :
    RoundTrip Ball.DISPLAY_WIDTH Ball.DISPLAY_HEIGHT Ball.get_pixel_index Ball.pixel_inverse := by
  intro x y h
  simp only [InCanvas, Ball.DISPLAY_WIDTH, Ball.DISPLAY_HEIGHT, Ball.PANEL_WIDTH,
    Ball.PANEL_HEIGHT, Ball.GRID_COLS, Ball.GRID_ROWS] at h
  simp only [Ball.get_pixel_index, Ball.pixel_inverse, Ball.DISPLAY_WIDTH,
    Ball.DISPLAY_HEIGHT, Ball.PANEL_WIDTH, Ball.PANEL_HEIGHT, Ball.GRID_COLS,
    Ball.GRID_ROWS, LED_COUNT, LED_PANEL_SIZE, NUM_PANELS]
  split_ifs <;> simp_all <;> constructor <;> omega

lemma list_range_all {n : ℕ} {p : ℕ → Bool} (h : (List.range n).all p = true) :
    ∀ i, i < n → p i = true := by
  intro i hi
  exact List.all_eq_true.mp h i (List.mem_range.mpr hi)

/-- Exhaustive round-trip check for stars.py's resolver over its whole
    32x32 canvas. -/
def stars_roundtrip_check : Bool :=
  (List.range 32).all fun a =>
    (List.range 32).all fun b =>
      decide (Stars.pixel_inverse (Stars.get_pixel_index (a : ℤ) (b : ℤ)) = ((a : ℤ), (b : ℤ)))

set_option maxRecDepth 10000

lemma stars_roundtrip_check_true : stars_roundtrip_check = true := by decide

lemma stars_roundTrip :
    RoundTrip Stars.DISPLAY_WIDTH Stars.DISPLAY_HEIGHT Stars.get_pixel_index Stars.pixel_inverse := by
  intro x y h
  simp only [InCanvas, Stars.DISPLAY_WIDTH, Stars.DISPLAY_HEIGHT, Stars.PANEL_WIDTH,
    Stars.PANEL_HEIGHT, Stars.GRID_COLS, Stars.GRID_ROWS] at h
  obtain ⟨hx0, hx1, hy0, hy1⟩ := h
  obtain ⟨a, rfl⟩ := Int.eq_ofNat_of_zero_le hx0
  obtain ⟨b, rfl⟩ := Int.eq_ofNat_of_zero_le hy0
  have ha : a < 32 := by exact_mod_cast hx1
  have hb : b < 32 := by exact_mod_cast hy1
  have h1 := list_range_all stars_roundtrip_check_true a ha
  have h2 := list_range_all h1 b hb
  exact of_decide_eq_true h2

/-- C2: each dense-topology resolver (main.py's 1x4 chain, ball.py's and
    stars.py's 2x2 grids) is injective on in-canvas coordinates, and an
    inverse from physical index to logical coordinate exists: composing it
    with the resolver is the identity on every in-canvas (x, y). -/
theorem C2_dense_resolver_injective :
    RoundTrip Main.TOTAL_WIDTH Main.PANEL_HEIGHT Main.get_pixel_index Main.pixel_inverse ∧
    InjectiveOnCanvas Main.TOTAL_WIDTH Main.PANEL_HEIGHT Main.get_pixel_index ∧
    RoundTrip Ball.DISPLAY_WIDTH Ball.DISPLAY_HEIGHT Ball.get_pixel_index Ball.pixel_inverse ∧
    InjectiveOnCanvas Ball.DISPLAY_WIDTH Ball.DISPLAY_HEIGHT Ball.get_pixel_index ∧
    RoundTrip Stars.DISPLAY_WIDTH Stars.DISPLAY_HEIGHT Stars.get_pixel_index Stars.pixel_inverse ∧
    InjectiveOnCanvas Stars.DISPLAY_WIDTH Stars.DISPLAY_HEIGHT Stars.get_pixel_index :=
  ⟨main_roundTrip, roundTrip_injectiveOnCanvas main_roundTrip,
   ball_roundTrip, roundTrip_injectiveOnCanvas ball_roundTrip,
   stars_roundTrip, roundTrip_injectiveOnCanvas stars_roundTrip⟩

/-- Concrete instance of C2: the round trip recovers (3, 5) through the
    chain resolver and (17, 9) through the 2x2 mirror resolver. -/
theorem C2_dense_resolver_injective_witness :
    Main.pixel_inverse (Main.get_pixel_index 3 5) = (3, 5) ∧
    Stars.pixel_inverse (Stars.get_pixel_index 17 9) = (17, 9) :=
  ⟨C2_dense_resolver_injective.1 3 5 (by refine ⟨by decide, by decide, by decide, by decide⟩),
   C2_dense_resolver_injective.2.2.2.2.1 17 9 (by refine ⟨by decide, by decide, by decide, by decide⟩)⟩

/-- C3 counterexample: ball.py's 2x2 resolver places logical (0, 0) on
    panel 2 (its docstring's top-left panel), at physical index 512, not at
    index 0 as the claimed scenario (bottom-left panel at chain offset 0
    owning (0,0)) requires. -/
theorem C3_grid_scenario_counterexample :
    Ball.get_pixel_index 0 0 = 512 ∧ Ball.get_pixel_index 0 0 ≠ 0 := by
  constructor <;> decide

/-- C3 amended: for ball.py's and video.py's 2x2 resolvers (panels [2][3]
    on the top row owning y in [0,16), panels [0][1] on the bottom row),
    resolve(0,0) = 512, resolve(15,0) = 527, resolve(0,1) = 543
    (= 512 + 16 + 15, row 1 reversed), and resolve(16,0) = 768
    (= panel 3 offset). -/
theorem C3_grid_scenario_amended :
    Ball.get_pixel_index 0 0 = 512 ∧ Ball.get_pixel_index 15 0 = 527 ∧
    Ball.get_pixel_index 0 1 = 543 ∧ Ball.get_pixel_index 16 0 = 768 ∧
    Video.get_pixel_index 0 0 = 512 ∧ Video.get_pixel_index 15 0 = 527 ∧
    Video.get_pixel_index 0 1 = 543 ∧ Video.get_pixel_index 16 0 = 768 := by
  refine ⟨?_, ?_, ?_, ?_, ?_, ?_, ?_, ?_⟩ <;> decide

/-- Modelled from the spec: the non-serpentine row-major mapping of
    section 4.1 (step 5 with no serpentine correction applied):
    panel chain offset + local_y * panel_width + local_x. -/
def row_major_index (panel x y : ℤ) : ℤ := panel * LED_PANEL_SIZE + y * 16 + x

/-- C8: with serpentine enabled, chain.py resolves (0, 1) of any configured
    panel to the index the non-serpentine row-major mapping gives to
    (panel_width - 1, 1) = (15, 1): row 1 is traversed reversed, so the
    index is panel * 256 + 1 * 16 + 15. -/
theorem C8_serpentine_row1 (p : ℤ) (hp0 : 0 ≤ p) (hp : p < NUM_PANELS) :
    Chain.get_pixel_index 0 1 p = row_major_index p 15 1 ∧
    Chain.get_pixel_index 0 1 p = p * 256 + 1 * 16 + 15 := by
  simp only [NUM_PANELS] at hp
  simp only [Chain.get_pixel_index, row_major_index, LED_COUNT, LED_PANEL_SIZE, NUM_PANELS]
  split_ifs <;> constructor <;> omega

/-- Concrete instance of C8 at panel 2. -/
theorem C8_serpentine_row1_witness :
    Chain.get_pixel_index 0 1 2 = row_major_index 2 15 1 ∧
    Chain.get_pixel_index 0 1 2 = 2 * 256 + 1 * 16 + 15 :=
  C8_serpentine_row1 2 (by decide) (by decide)

/-- Closed form of the mirror-family resolvers (stars.py, shark.py,
    text02.py, rabit.py) on in-canvas coordinates: the whole-row mirror and
    the odd-row serpentine flip cancel on odd local rows, so even local rows
    are mirrored and odd local rows run in natural order. -/
def mirror_family_formula (x y : ℤ) : ℤ :=
  (y / 16 * 2 + x / 16) * 256 + y % 16 * 16 +
    (if y % 16 % 2 = 0 then 15 - x % 16 else x % 16)

/-- C10: on every in-bounds (x, y) of the 32x32 canvas, each resolver in
    the pre-mirroring family (stars.py, shark.py, text02.py, rabit.py)
    returns ((y/16)*2 + x/16)*256 + (y%16)*16 + c with c = 15 - x%16 on
    even local rows and c = x%16 on odd local rows: the opposite row parity
    from the plain serpentine resolvers. -/
theorem C10_mirror_family_formula (x y : ℤ)
    (hx0 : 0 ≤ x) (hx1 : x < 32) (hy0 : 0 ≤ y) (hy1 : y < 32) :
    Stars.get_pixel_index x y = mirror_family_formula x y ∧
    Shark.get_pixel_index x y = mirror_family_formula x y ∧
    Text02.get_pixel_index x y = mirror_family_formula x y ∧
    Rabit.get_pixel_index x y = mirror_family_formula x y := by
  refine ⟨?_, ?_, ?_, ?_⟩ <;>
    simp only [Stars.get_pixel_index, Shark.get_pixel_index, Text02.get_pixel_index,
      Rabit.get_pixel_index, mirror_family_formula, Stars.DISPLAY_WIDTH,
      Stars.DISPLAY_HEIGHT, Stars.PANEL_WIDTH, Stars.PANEL_HEIGHT, Stars.GRID_COLS,
      Stars.GRID_ROWS, Shark.DISPLAY_WIDTH, Shark.DISPLAY_HEIGHT, Text02.DISPLAY_WIDTH,
      Text02.DISPLAY_HEIGHT, Rabit.DISPLAY_WIDTH, Rabit.DISPLAY_HEIGHT,
      LED_COUNT, LED_PANEL_SIZE, NUM_PANELS] <;>
    split_ifs <;> omega

/-- Concrete instance of C10 at (3, 5): local row 5 is odd, so the column
    is 3 and the index is 16*5 + 3 = 83. -/
theorem C10_mirror_family_formula_witness :
    Stars.get_pixel_index 3 5 = mirror_family_formula 3 5 ∧
    Shark.get_pixel_index 3 5 = mirror_family_formula 3 5 ∧
    Text02.get_pixel_index 3 5 = mirror_family_formula 3 5 ∧
    Rabit.get_pixel_index 3 5 = mirror_family_formula 3 5 :=
  C10_mirror_family_formula 3 5 (by decide) (by decide) (by decide) (by decide)

/-- text.py lines 161-178, TextDisplayController.hsv_to_rgb: a verbatim
    copy of CPython's colorsys.hsv_to_rgb, which is also what main.py
    line 76 calls.  Hue, saturation, value in [0,1] are expected, but the
    function itself never clamps. -/
def hsv_to_rgb (h s v : ℚ) : ℚ × ℚ × ℚ :=
  if s = 0 then (v, v, v) else
  let i0 : ℤ := pyint (h * 6)
  let f : ℚ := h * 6 - (i0 : ℚ)
  let p := v * (1 - s)
  let q := v * (1 - s * f)
  let t := v * (1 - s * (1 - f))
  let i := i0 % 6
  if i = 0 then (v, t, p)
  else if i = 1 then (q, v, p)
  else if i = 2 then (p, v, t)
  else if i = 3 then (p, q, v)
  else if i = 4 then (t, p, v)
  else (v, p, q)

namespace Main

/-- main.py lines 74-77, NeoPixelController.hsv_to_color: the three 8-bit
    channel values int(r*255), int(g*255), int(b*255) passed to the
    vendor's Color constructor.  No clamping is applied. -/
def hsv_to_color_channels (h s v : ℚ) : ℤ × ℤ × ℤ :=
  let rgb := hsv_to_rgb h s v
  (pyint (rgb.1 * 255), pyint (rgb.2.1 * 255), pyint (rgb.2.2 * 255))

end Main

namespace Text

/-- text.py lines 150-153, inside sparkle_animation: one channel of a
    sparkling pixel write; intensity is 1.5 on sparkling pixels and 1.0
    otherwise, and the channel is clamped with min(255, int(c*intensity)),
    the multiplier applied before the clamp. -/
def sparkle_channel (c : ℤ) (sparkle : Bool) : ℤ :=
  let intensity : ℚ := if sparkle then 3 / 2 else 1
  min 255 (pyint ((c : ℚ) * intensity))

end Text

lemma hsv_red_at_135 : (Main.hsv_to_color_channels 0 1 (27/20)).1 = 344 := by
  norm_num [Main.hsv_to_color_channels, hsv_to_rgb, pyint]

/-- C4 counterexample: main.py's hsv_to_color performs no clamping: at
    value v = 1.35 (saturation 1, hue 0) its red channel output is
    int(1.35 * 255) = 344, not 255. -/
theorem C4_clamping_counterexample :
    (Main.hsv_to_color_channels 0 1 (27/20)).1 = 344 ∧
    (Main.hsv_to_color_channels 0 1 (27/20)).1 ≠ 255 := by
  refine ⟨hsv_red_at_135, ?_⟩
  rw [hsv_red_at_135]
  decide

/-- C4 amended: text.py's sparkle animation clamps every channel to at
    most 255 (min(255, int(c*intensity)), the brightness multiplier applied
    before the clamp), but main.py's hsv_to_color does not clamp: for a
    value of 1.35 its red channel is int(1.35*255) = 344, above 255. -/
theorem C4_clamping_amended :
    (∀ c : ℤ, ∀ sparkle : Bool, Text.sparkle_channel c sparkle ≤ 255) ∧
    (Main.hsv_to_color_channels 0 1 (27/20)).1 = 344 :=
  ⟨fun _ _ => min_le_left _ _, hsv_red_at_135⟩

/-- One observable operation on the vendor strip object: a pixel write
    (setPixelColor) or a flush (show). -/
inductive StripEvent where
  | setPixel (i : ℤ) (c : ℤ)
  | showStrip

/-- Modelled from the spec: the vendor device handle's Color constructor
    packs three 8-bit channels into one integer (red<<16 | green<<8 |
    blue); for channels in [0, 256) the bit-packing equals this arithmetic
    form.  The vendor library is an external collaborator, not part of
    src/. -/
def Color (r g b : ℤ) : ℤ := r * 65536 + g * 256 + b

def isShow : StripEvent → Bool
  | .showStrip => true
  | .setPixel _ _ => false

/-- Number of show() calls in a trace. -/
def countShows (es : List StripEvent) : ℕ := (es.filter isShow).length

lemma countShows_append (a b : List StripEvent) :
    countShows (a ++ b) = countShows a + countShows b := by
  simp [countShows, List.filter_append]

lemma countShows_map_zero {α : Type} (l : List α) (f : α → StripEvent)
    (h : ∀ a, isShow (f a) = false) : countShows (l.map f) = 0 := by
  induction l with
  | nil => rfl
  | cons x xs ih => simp [countShows, List.filter_cons, h x] at ih ⊢; exact ih

lemma countShows_flatMap_zero {α : Type} (l : List α) (f : α → List StripEvent)
    (h : ∀ a, countShows (f a) = 0) : countShows (l.flatMap f) = 0 := by
  induction l with
  | nil => rfl
  | cons x xs ih => rw [List.flatMap_cons, countShows_append, h x, ih]

namespace Main

/-- main.py lines 62-66, clear_strip: write black to every one of the
    strip's numPixels() = LED_COUNT pixels, then one show. -/
def clear_strip_events : List StripEvent :=
  ((List.range 1024).map fun i => .setPixel (i : ℤ) (Color 0 0 0)) ++ [.showStrip]

/-- main.py lines 68-72, set_pixel: resolve (x, y); write the color only
    when the resolved index is valid, otherwise no device call at all. -/
def set_pixel_events (x y : ℤ) (color : ℤ) : List StripEvent :=
  let pixel_index := get_pixel_index x y
  if 0 ≤ pixel_index then [.setPixel pixel_index color] else []

/-- main.py lines 74-77, hsv_to_color as the packed Color integer. -/
def hsv_to_color (h s v : ℚ) : ℤ :=
  let ch := hsv_to_color_channels h s v
  Color ch.1 ch.2.1 ch.2.2

/-- main.py lines 136-142, get_trail_color (closure inside snake_effect,
    length bound to the snake length): packed color for trail position pos
    at time t. -/
def get_trail_color (length pos : ℤ) (t : ℚ) : ℤ :=
  let distance := length - pos
  let intensity : ℚ := 1 - (distance : ℚ) / (length : ℚ)
  if intensity ≤ 0 then Color 0 0 0
  else
    let hue := pymod (t + (pos : ℚ) / (length : ℚ)) 1
    hsv_to_color hue 1 intensity

/-- main.py lines 156-171: the pixel writes of one snake frame, for the
    frame's trail (length 20): each in-bounds trail element gets a
    three-pixel vertical glow; the packed color is unpacked with >>16/&0xFF
    (equal to /65536 and %256 on the nonnegative packed value), scaled by
    1.0 or 0.5, repacked, and written through set_pixel. -/
def snake_trail_events (t : ℚ) (trail : List (ℤ × ℤ)) : List StripEvent :=
  trail.enum.flatMap fun ip =>
    if 0 ≤ ip.2.1 ∧ ip.2.1 < TOTAL_WIDTH then
      let color := get_trail_color 20 (ip.1 : ℤ) t
      (([-1, 0, 1] : List ℤ).flatMap fun dy =>
        let new_y := ip.2.2 + dy
        if 0 ≤ new_y ∧ new_y < 16 then
          let intensity : ℚ := if dy = 0 then 1 else 1 / 2
          let r := color / 65536 % 256
          let g := color / 256 % 256
          let b := color % 256
          let glow_color := Color (pyint ((r : ℚ) * intensity))
            (pyint ((g : ℚ) * intensity)) (pyint ((b : ℚ) * intensity))
          set_pixel_events ip.2.1 new_y glow_color
        else [])
    else []

/-- main.py lines 145-174: the strip events of one iteration of the
    snake_effect render loop (default length 20, fixed row y = 8), as a
    function of the iteration's time value t and the incoming trail: the
    head position is computed, the trail updated and truncated, then
    clear_strip runs (writing black everywhere and showing), then the
    trail glow is written, then the final show is issued. -/
def snake_frame_events (t : ℚ) (trail : List (ℤ × ℤ)) : List StripEvent :=
  let x := pyint (pymod (t * 20) ((TOTAL_WIDTH : ℚ) + 20 * 2)) - 20
  let trail := if 0 ≤ x ∧ x < TOTAL_WIDTH then (x, (8 : ℤ)) :: trail else trail
  let trail := trail.take 20
  clear_strip_events ++ snake_trail_events t trail ++ [.showStrip]

end Main

namespace Stars

/-- stars.py lines 178-213, update_display: the strip events of one frame.
    The sin/cos/random color and position computations enter as the
    frame's data: bg is the packed background color per coordinate,
    star_pixels the already-truncated integer positions and packed colors
    of the fixed stars, shooting_trails the trail positions and packed
    colors of each live shooting star.  The event structure -- which
    pixels are written, in what order, and where show() happens -- follows
    the source: background pass, star pass, shooting-star trails, spawn
    attempt (no strip calls), one final show. -/
def update_display_events (bg : ℤ → ℤ → ℤ) (star_pixels : List ((ℤ × ℤ) × ℤ))
    (shooting_trails : List (List ((ℤ × ℤ) × ℤ))) : List StripEvent :=
  ((List.range 32).flatMap fun y =>
    (List.range 32).flatMap fun x =>
      let pixel_index := get_pixel_index (x : ℤ) (y : ℤ)
      if 0 ≤ pixel_index then [.setPixel pixel_index (bg (x : ℤ) (y : ℤ))] else []) ++
  (star_pixels.flatMap fun pc =>
    let pixel_index := get_pixel_index pc.1.1 pc.1.2
    if 0 ≤ pixel_index then [.setPixel pixel_index pc.2] else []) ++
  (shooting_trails.flatMap fun trail =>
    trail.flatMap fun pc =>
      let pixel_index := get_pixel_index pc.1.1 pc.1.2
      if 0 ≤ pixel_index then [.setPixel pixel_index pc.2] else []) ++
  [.showStrip]

/-- stars.py lines 173-176, clear_display: black to all LED_COUNT pixels,
    then one show. -/
def clear_display_events : List StripEvent :=
  ((List.range 1024).map fun i => .setPixel (i : ℤ) (Color 0 0 0)) ++ [.showStrip]

end Stars

lemma countShows_guard (P : Prop) [Decidable P] (i c : ℤ) :
    countShows (if P then [StripEvent.setPixel i c] else []) = 0 := by
  split_ifs <;> rfl

lemma main_clear_count : countShows Main.clear_strip_events = 1 := by
  have h0 : countShows ((List.range 1024).map fun (i : ℕ) =>
      StripEvent.setPixel (i : ℤ) (Color 0 0 0)) = 0 :=
    countShows_map_zero _ _ (fun _ => rfl)
  rw [Main.clear_strip_events, countShows_append, h0]
  rfl

lemma set_pixel_no_show (x y c : ℤ) : countShows (Main.set_pixel_events x y c) = 0 := by
  unfold Main.set_pixel_events
  dsimp only
  split_ifs <;> rfl

lemma snake_trail_no_show (t : ℚ) (trail : List (ℤ × ℤ)) :
    countShows (Main.snake_trail_events t trail) = 0 := by
  unfold Main.snake_trail_events
  apply countShows_flatMap_zero
  intro ip
  dsimp only
  split_ifs
  · apply countShows_flatMap_zero
    intro dy
    dsimp only
    split_ifs <;> first | exact set_pixel_no_show _ _ _ | rfl
  · rfl

lemma snake_frame_count (t : ℚ) (trail : List (ℤ × ℤ)) :
    countShows (Main.snake_frame_events t trail) = 2 := by
  unfold Main.snake_frame_events
  dsimp only
  rw [countShows_append, countShows_append, main_clear_count, snake_trail_no_show]
  rfl

lemma stars_update_count (bg : ℤ → ℤ → ℤ) (star_pixels : List ((ℤ × ℤ) × ℤ))
    (shooting_trails : List (List ((ℤ × ℤ) × ℤ))) :
    countShows (Stars.update_display_events bg star_pixels shooting_trails) = 1 := by
  unfold Stars.update_display_events
  rw [countShows_append, countShows_append, countShows_append]
  rw [countShows_flatMap_zero _ _ (fun y => countShows_flatMap_zero _ _
      (fun x => countShows_guard _ _ _))]
  rw [countShows_flatMap_zero _ _ (fun pc => countShows_guard _ _ _)]
  rw [countShows_flatMap_zero _ _ (fun trail => countShows_flatMap_zero _ _
      (fun pc => countShows_guard _ _ _))]
  rfl

/-- C5 counterexample: one iteration of main.py's snake_effect issues two
    show() calls, not one: clear_strip (called mid-frame) flushes once
    itself, and the iteration flushes again at its end.  (Instance at
    t = 0 with an empty incoming trail.) -/
theorem C5_single_flush_counterexample :
    countShows (Main.snake_frame_events 0 []) = 2 :=
  snake_frame_count 0 []

/-- C5 amended: stars.py's update_display issues exactly one show() per
    frame, as the last strip call, after all of the frame's pixel writes;
    main.py's snake_effect however issues two show() calls per iteration
    -- the mid-frame flush inside clear_strip and the final flush -- the
    final one still last. -/
theorem C5_single_flush_amended (bg : ℤ → ℤ → ℤ)
    (star_pixels : List ((ℤ × ℤ) × ℤ)) (shooting_trails : List (List ((ℤ × ℤ) × ℤ)))
    (t : ℚ) (trail : List (ℤ × ℤ)) :
    countShows (Stars.update_display_events bg star_pixels shooting_trails) = 1 ∧
    (Stars.update_display_events bg star_pixels shooting_trails).getLast? =
      some .showStrip ∧
    countShows (Main.snake_frame_events t trail) = 2 ∧
    (Main.snake_frame_events t trail).getLast? = some .showStrip := by
  refine ⟨stars_update_count bg star_pixels shooting_trails, ?_,
    snake_frame_count t trail, ?_⟩
  · unfold Stars.update_display_events
    rw [List.getLast?_append_cons]
    rfl
  · unfold Main.snake_frame_events
    dsimp only
    rw [List.getLast?_append_cons]
    rfl

/-- A trace that is one complete clearing flush: every pixel written black,
    followed by a single show. -/
def complete_clear_flush (es : List StripEvent) : Prop :=
  es = ((List.range 1024).map fun (i : ℕ) =>
    StripEvent.setPixel (i : ℤ) (Color 0 0 0)) ++ [.showStrip]

namespace Main

/-- main.py lines 288-291 with lines 299-301: the strip events of the
    normal exit path (menu choice '7'): the menu branch calls clear_strip
    and breaks out of the loop, after which the finally block calls
    clear_strip a second time. -/
def menu_quit_events : List StripEvent := clear_strip_events ++ clear_strip_events

/-- main.py lines 34-39 with lines 299-301: the strip events of the SIGINT
    and SIGTERM path: signal_handler calls clear_strip and then sys.exit(0);
    the SystemExit it raises is caught by neither except clause, so the
    finally block calls clear_strip a second time before the process ends.
    (The handler is modeled as running between two top-level statements;
    the frame events it interrupts are not part of this trace.) -/
def sigint_exit_events : List StripEvent := clear_strip_events ++ clear_strip_events

end Main

namespace Stars

/-- stars.py lines 215-218 (with the loop of lines 225-232): the strip
    events of the SIGINT path: signal_handler calls clear_display once and
    exits; the SystemExit is not caught (the loop catches only
    KeyboardInterrupt), so no further strip calls follow. -/
def sigint_exit_events : List StripEvent := clear_display_events

end Stars

/-- C6 counterexample: on main.py's normal exit path (menu choice '7') the
    strip receives two clearing flushes, not exactly one: the menu
    branch's clear_strip and the finally block's clear_strip. -/
theorem C6_clearing_flush_counterexample :
    countShows Main.menu_quit_events = 2 ∧
    Main.menu_quit_events = Main.clear_strip_events ++ Main.clear_strip_events := by
  refine ⟨?_, rfl⟩
  rw [Main.menu_quit_events, countShows_append, main_clear_count]

/-- C6 amended: every clearing flush is complete (all pixels written black
    before its single show), so no partial-clear flush is observable; but
    the number of clearing flushes per exit path is two for main.py (both
    on the normal menu-quit path and on the signal path, where the handler
    clear is followed by the finally clear) and one for stars.py's signal
    path. -/
theorem C6_clearing_flush_amended :
    (∃ flush : List StripEvent, complete_clear_flush flush ∧
      Main.menu_quit_events = flush ++ flush ∧
      Main.sigint_exit_events = flush ++ flush ∧
      Stars.sigint_exit_events = flush) ∧
    countShows Main.menu_quit_events = 2 ∧
    countShows Main.sigint_exit_events = 2 ∧
    countShows Stars.sigint_exit_events = 1 := by
  refine ⟨⟨Main.clear_strip_events, rfl, rfl, rfl, rfl⟩, ?_, ?_, ?_⟩
  · rw [Main.menu_quit_events, countShows_append, main_clear_count]
  · rw [Main.sigint_exit_events, countShows_append, main_clear_count]
  · have h0 : countShows ((List.range 1024).map fun (i : ℕ) =>
        StripEvent.setPixel (i : ℤ) (Color 0 0 0)) = 0 :=
      countShows_map_zero _ _ (fun _ => rfl)
    rw [Stars.sigint_exit_events, Stars.clear_display_events, countShows_append, h0]
    rfl

namespace Stars01

/-- stars01.py lines 246-255 (update_display's per-pixel write, the same
    guard every write site in the file uses): resolve (x, y); call
    setPixelColor only when the resolved index is nonnegative, otherwise
    perform no device call. -/
def guarded_write_events (x y : ℤ) (color : ℤ) : List StripEvent :=
  let pixel_index := get_pixel_index x y
  if 0 ≤ pixel_index then [.setPixel pixel_index color] else []

end Stars01

/-- C9: for every out-of-canvas coordinate and every color, the guarded
    pixel-write paths perform no device write at all: main.py's set_pixel
    and stars01.py's update_display write site emit no setPixelColor call
    (and, being total functions, raise no error), leaving the strip
    untouched. -/
theorem C9_oob_write_noop (x y color : ℤ) :
    (¬ InCanvas Main.TOTAL_WIDTH Main.PANEL_HEIGHT x y →
      Main.set_pixel_events x y color = []) ∧
    (¬ InCanvas Stars01.DISPLAY_WIDTH Stars01.DISPLAY_HEIGHT x y →
      Stars01.guarded_write_events x y color = []) := by
  constructor <;> intro h
  · unfold Main.set_pixel_events
    rw [(main_total x y).2 h]
    rfl
  · unfold Stars01.guarded_write_events
    rw [(stars01_total x y).2 h]
    rfl

/-- Concrete instance of C9 at the negative coordinate (-1, 0). -/
theorem C9_oob_write_noop_witness :
    Main.set_pixel_events (-1) 0 7 = [] ∧
    Stars01.guarded_write_events (-1) 0 7 = [] :=
  ⟨(C9_oob_write_noop (-1) 0 7).1 (fun h => absurd h.1 (by decide)),
   (C9_oob_write_noop (-1) 0 7).2 (fun h => absurd h.1 (by decide))⟩

namespace Stars

/-- The fields of stars.py's Star class that drive the shooting-star
    lifecycle: update adds speed to life, and a shooting star is removed
    once life >= max_life (stars.py lines 66-67 and 194-195).  The other
    per-star attributes (position, angle, color) do not affect the list
    length. -/
structure ShootingStar where
  life : ℚ
  max_life : ℚ

/-- stars.py line 97. -/
def max_shooting_stars : ℕ := 5

/-- stars.py lines 113-130, add_shooting_star: the star (built from random
    edge data, passed here already constructed) is appended only while the
    list is below max_shooting_stars. -/
def add_shooting_star (shooting_stars : List ShootingStar) (star : ShootingStar) :
    List ShootingStar :=
  if shooting_stars.length < max_shooting_stars then shooting_stars ++ [star]
  else shooting_stars

/-- The shooting-star lists reachable by stars.py's loop: the list starts
    empty (stars.py line 94); each update_display tick mutates the stars
    in place (Star.update, whose trigonometric physics is abstracted as an
    arbitrary per-element map), removes the expired ones (line 194), and
    makes at most one spawn attempt (lines 208-211). -/
inductive ShootingReachable : List ShootingStar → Prop
  | init : ShootingReachable []
  | update (s : List ShootingStar) (f : ShootingStar → ShootingStar) :
      ShootingReachable s → ShootingReachable (s.map f)
  | expire (s : List ShootingStar) :
      ShootingReachable s →
      ShootingReachable (s.filter fun star => star.life < star.max_life)
  | spawn (s : List ShootingStar) (star : ShootingStar) :
      ShootingReachable s → ShootingReachable (add_shooting_star s star)

end Stars

namespace Shark

/-- shark.py lines 64-74, Bubble: rises by speed each tick. -/
structure Bubble where
  x : ℚ
  y : ℚ
  speed : ℚ
  size : ℤ

/-- shark.py lines 72-74, Bubble.update. -/
def Bubble.update (b : Bubble) : Bubble := { b with y := b.y - b.speed }

/-- shark.py line 101. -/
def max_bubbles : ℕ := 10

/-- shark.py lines 139-145, add_bubble: the bubble (random position, speed
    and size, passed here already constructed) is appended only while the
    list is below max_bubbles. -/
def add_bubble (bubbles : List Bubble) (bubble : Bubble) : List Bubble :=
  if bubbles.length < max_bubbles then bubbles ++ [bubble] else bubbles

/-- The bubble lists reachable by shark.py's loop: the list starts empty
    (shark.py line 98); each update_display tick removes the bubbles that
    floated off the top (line 158), updates the rest (line 161), and makes
    at most one spawn attempt (lines 164-167). -/
inductive BubbleReachable : List Bubble → Prop
  | init : BubbleReachable []
  | pop (s : List Bubble) :
      BubbleReachable s → BubbleReachable (s.filter fun b => 0 < b.y)
  | update (s : List Bubble) :
      BubbleReachable s → BubbleReachable (s.map Bubble.update)
  | spawn (s : List Bubble) (b : Bubble) :
      BubbleReachable s → BubbleReachable (add_bubble s b)

end Shark

namespace Stars01

/-- stars01.py's Planet: only its lifecycle matters here; the float
    physics of Planet.update is abstracted as an arbitrary survival
    predicate combined with an arbitrary per-element mutation. -/
structure Planet where
  x : ℚ
  y : ℚ

/-- stars01.py line 147. -/
def max_planets : ℕ := 8

/-- stars01.py lines 181-184, add_planet: the planet is appended only when
    the list is below max_planets and the random spawn coin
    (random.random() < 0.4) succeeds. -/
def add_planet (planets : List Planet) (coin : Bool) (planet : Planet) : List Planet :=
  if planets.length < max_planets ∧ coin = true then planets ++ [planet] else planets

/-- The planet lists reachable by stars01.py's loop: the list starts empty
    (stars01.py line 141); each update_display tick keeps exactly the
    planets whose update() returns true, possibly mutated (line 257), and
    add_planet makes at most one spawn attempt per tick. -/
inductive PlanetReachable : List Planet → Prop
  | init : PlanetReachable []
  | update (s : List Planet) (f : Planet → Planet) :
      PlanetReachable s → PlanetReachable (s.map f)
  | expire (s : List Planet) (alive : Planet → Bool) :
      PlanetReachable s → PlanetReachable (s.filter alive)
  | spawn (s : List Planet) (coin : Bool) (planet : Planet) :
      PlanetReachable s → PlanetReachable (add_planet s coin planet)

end Stars01

lemma shooting_len {s : List Stars.ShootingStar} (h : Stars.ShootingReachable s) :
    s.length ≤ Stars.max_shooting_stars := by
  induction h with
  | init => simp
  | update s f _ ih => simpa using ih
  | expire s _ ih => exact le_trans (List.length_filter_le _ _) ih
  | spawn s star _ ih =>
      unfold Stars.add_shooting_star
      split_ifs with hlt
      · simp only [List.length_append, List.length_cons, List.length_nil]
        omega
      · exact ih

lemma bubble_len {s : List Shark.Bubble} (h : Shark.BubbleReachable s) :
    s.length ≤ Shark.max_bubbles := by
  induction h with
  | init => simp
  | pop s _ ih => exact le_trans (List.length_filter_le _ _) ih
  | update s _ ih => simpa using ih
  | spawn s b _ ih =>
      unfold Shark.add_bubble
      split_ifs with hlt
      · simp only [List.length_append, List.length_cons, List.length_nil]
        omega
      · exact ih

lemma planet_len {s : List Stars01.Planet} (h : Stars01.PlanetReachable s) :
    s.length ≤ Stars01.max_planets := by
  induction h with
  | init => simp
  | update s f _ ih => simpa using ih
  | expire s alive _ ih => exact le_trans (List.length_filter_le _ _) ih
  | spawn s coin planet _ ih =>
      unfold Stars01.add_planet
      split_ifs with hlt
      · simp only [List.length_append, List.length_cons, List.length_nil]
        omega
      · exact ih

/-- C7: in every state reachable by the three animation loops, the live
    object count never exceeds its configured cap (5 shooting stars in
    stars.py, 10 bubbles in shark.py, 8 planets in stars01.py), and a
    spawn attempt made while the count equals the cap leaves the list
    unchanged. -/
theorem C7_population_cap (s : List Stars.ShootingStar) (b : List Shark.Bubble)
    (p : List Stars01.Planet) (hs : Stars.ShootingReachable s)
    (hb : Shark.BubbleReachable b) (hp : Stars01.PlanetReachable p) :
    s.length ≤ 5 ∧ b.length ≤ 10 ∧ p.length ≤ 8 ∧
    (∀ star, s.length = 5 → Stars.add_shooting_star s star = s) ∧
    (∀ bubble, b.length = 10 → Shark.add_bubble b bubble = b) ∧
    (∀ coin planet, p.length = 8 → Stars01.add_planet p coin planet = p) := by
  refine ⟨shooting_len hs, bubble_len hb, planet_len hp, ?_, ?_, ?_⟩
  · intro star hlen
    unfold Stars.add_shooting_star
    rw [if_neg]
    unfold Stars.max_shooting_stars
    omega
  · intro bubble hlen
    unfold Shark.add_bubble
    rw [if_neg]
    unfold Shark.max_bubbles
    omega
  · intro coin planet hlen
    unfold Stars01.add_planet
    rw [if_neg]
    unfold Stars01.max_planets
    intro hc
    omega

/-- Concrete instance of C7 at the initial (empty) state of each loop. -/
theorem C7_population_cap_witness :
    ([] : List Stars.ShootingStar).length ≤ 5 ∧
    ([] : List Shark.Bubble).length ≤ 10 ∧
    ([] : List Stars01.Planet).length ≤ 8 ∧
    (∀ star, ([] : List Stars.ShootingStar).length = 5 →
      Stars.add_shooting_star [] star = []) ∧
    (∀ bubble, ([] : List Shark.Bubble).length = 10 →
      Shark.add_bubble [] bubble = []) ∧
    (∀ coin planet, ([] : List Stars01.Planet).length = 8 →
      Stars01.add_planet [] coin planet = []) :=
  C7_population_cap [] [] [] .init .init .init
